import Mathlib

/-!
Shallow embedding of the authentication and session-lifecycle core of the
multi-tenant ERP client: the zustand credential store
(src/frontend/src/stores/authStore.ts), the axios request/response
interceptors (src/frontend/src/services/api.ts), the operator four-step
login handlers (SuperLoginPage in src/unnamed/part_000) and the tenant
access-gate polling (TenantProtectedRoute in src/unnamed/part_002).

JavaScript strings are modelled as `String`, nullable strings as
`Option String`; JS truthiness of a nullable string (`null`, `undefined`
and the empty string are falsy) is `strTruthy`.
-/

namespace ERP

/-- JS truthiness of a nullable string: null/undefined and "" are falsy. -/
def strTruthy : Option String → Bool
  | none => false
  | some s => s != ""

/-- JS `s.startsWith(p)`, over character lists so that proofs can
evaluate it. -/
def strStartsWith (s p : String) : Bool :=
  List.isPrefixOf p.toList s.toList

/-- JS `s || d` for plain strings: `s` when non-empty, else `d`. -/
def orStr (s d : String) : String :=
  if s != "" then s else d

/-- JS `x || d` for a nullable string and a plain default. -/
def orDefault (x : Option String) (d : String) : String :=
  match x with
  | some s => orStr s d
  | none => d

/-- JS `a || b` for two nullable strings (as in
`response.data.tokens?.access_token || response.data.access_token`). -/
def jsOr (a b : Option String) : Option String :=
  if strTruthy a then a else b

/-- The fields of the tenant `User` record (src/frontend/src/types/index.ts)
that the session core reads: `role_type` and `permissions` (hasPermission),
`payment_required` and `payment_message` (access gate).  `permissions` is
declared `string[]` but read through an optional chain, so it is modelled
as nullable; `payment_required`/`payment_message` are optional in the
interface. -/
structure User where
  id : Nat
  role_type : String
  permissions : Option (List String)
  payment_required : Option Bool
  payment_message : Option String
  deriving DecidableEq

/-- The operator identity record (`SuperAdmin` in types/index.ts). -/
structure SuperAdmin where
  id : Nat
  username : String
  deriving DecidableEq

/-- The zustand store state (`AuthState` in authStore.ts): tenant-session
fields, operator-session fields. The `_hasHydrated` flag is irrelevant to
the claims and omitted. -/
structure AuthState where
  user : Option User
  token : Option String
  refreshToken : Option String
  tenantSlug : Option String
  isAuthenticated : Bool
  superAdmin : Option SuperAdmin
  superToken : Option String
  superRefreshToken : Option String
  isSuperAdmin : Bool
  deriving DecidableEq

/-- The initial state of the store: every field null / false. -/
def initialState : AuthState :=
  { user := none
    token := none
    refreshToken := none
    tenantSlug := none
    isAuthenticated := false
    superAdmin := none
    superToken := none
    superRefreshToken := none
    isSuperAdmin := false }

/-- `setAuth(user, token, refreshToken, tenantSlug)` — installs a tenant
session and clears the operator-session fields (authStore.ts lines 51-64). -/
def setAuth (s : AuthState) (user : User) (token refreshToken tenantSlug : String) :
    AuthState :=
  { s with
    user := some user
    token := some token
    refreshToken := some refreshToken
    tenantSlug := some tenantSlug
    isAuthenticated := true
    superAdmin := none
    superToken := none
    superRefreshToken := none
    isSuperAdmin := false }

/-- `setToken(token)` — `set({ token })`: replaces the tenant `token` field
only (authStore.ts lines 66-68). -/
def setToken (s : AuthState) (token : String) : AuthState :=
  { s with token := some token }

/-- `setUser(user)` — `set({ user })` (authStore.ts lines 70-72). -/
def setUser (s : AuthState) (user : User) : AuthState :=
  { s with user := some user }

/-- `logout()` — clears the tenant-session fields, leaves the operator
fields alone (authStore.ts lines 74-82). -/
def logout (s : AuthState) : AuthState :=
  { s with
    user := none
    token := none
    refreshToken := none
    tenantSlug := none
    isAuthenticated := false }

/-- `hasPermission(permission)` (authStore.ts lines 84-89):
null user gives false; a director role gives true; otherwise
`user.permissions?.includes(permission) || false`. -/
def hasPermission (s : AuthState) (permission : String) : Bool :=
  match s.user with
  | none => false
  | some u =>
    if u.role_type = "director" then true
    else
      match u.permissions with
      | some ps => ps.contains permission
      | none => false

/-- `setSuperAuth(admin, token, refreshToken)` — installs an operator
session and clears the tenant-session fields (authStore.ts lines 92-105). -/
def setSuperAuth (s : AuthState) (admin : SuperAdmin) (token refreshToken : String) :
    AuthState :=
  { s with
    superAdmin := some admin
    superToken := some token
    superRefreshToken := some refreshToken
    isSuperAdmin := true
    user := none
    token := none
    refreshToken := none
    tenantSlug := none
    isAuthenticated := false }

/-- `superLogout()` — clears the operator-session fields only
(authStore.ts lines 107-114). -/
def superLogout (s : AuthState) : AuthState :=
  { s with
    superAdmin := none
    superToken := none
    superRefreshToken := none
    isSuperAdmin := false }

/-- A session-establishing call: `setAuth` or `setSuperAuth`. -/
inductive SessionEvent where
  | estTenant (user : User) (token refreshToken tenantSlug : String)
  | estOperator (admin : SuperAdmin) (token refreshToken : String)
  deriving DecidableEq

/-- Apply one session-establishing call to the store. -/
def applySessionEvent (s : AuthState) (e : SessionEvent) : AuthState :=
  match e with
  | .estTenant u t r sl => setAuth s u t r sl
  | .estOperator a t r => setSuperAuth s a t r

/-- Run a sequence of session-establishing calls from the initial state. -/
def runSession (evs : List SessionEvent) : AuthState :=
  evs.foldl applySessionEvent initialState

/-- The tenant domain holds a non-null token. -/
def tenantTokens (s : AuthState) : Bool :=
  s.token.isSome || s.refreshToken.isSome

/-- The operator domain holds a non-null token. -/
def operatorTokens (s : AuthState) : Bool :=
  s.superToken.isSome || s.superRefreshToken.isSome

/-- At most one identity domain has non-null tokens. -/
def domainExclusive (s : AuthState) : Bool :=
  !(tenantTokens s && operatorTokens s)

/-! ## Request gateway (src/frontend/src/services/api.ts) -/

/-- The slice of an axios request config the interceptors touch: the
request path, the base URL (absent unless set by `axios.create` or an
interceptor) and the `Authorization` header. -/
structure RequestConfig where
  url : String
  baseURL : Option String
  authHeader : Option String
  deriving DecidableEq

/-- `getTenantBaseURL()` (api.ts lines 8-14).  Note: this function is
defined in the source but never called; the request interceptor computes
the base URL itself and has no unscoped fallback. -/
def getTenantBaseURL (s : AuthState) : String :=
  match s.tenantSlug with
  | some slug => if slug != "" then "/api/v1/" ++ slug else "/api/v1"
  | none => "/api/v1"

/-- The tenant-instance request interceptor (api.ts lines 27-44): when the
stored slug is truthy, the url is truthy and the url does not start with
"/api/v1/super", set `baseURL` to "/api/v1/" ++ slug; when the stored
token is truthy, set the `Authorization` header. -/
def applyRequestInterceptor (s : AuthState) (cfg : RequestConfig) : RequestConfig :=
  let cfg1 :=
    if strTruthy s.tenantSlug && cfg.url != "" && !(strStartsWith cfg.url "/api/v1/super") then
      { cfg with baseURL := some ("/api/v1/" ++ s.tenantSlug.getD "") }
    else cfg
  if strTruthy s.token then
    { cfg1 with authHeader := some ("Bearer " ++ s.token.getD "") }
  else cfg1

/-- A request issued through the tenant instance `api`: the instance is
created by `axios.create` with no `baseURL` (api.ts lines 20-24), then the
request interceptor runs. -/
def tenantRequest (s : AuthState) (url : String) : RequestConfig :=
  applyRequestInterceptor s { url := url, baseURL := none, authHeader := none }

/-- A request issued through the operator instance `superApi`: the
instance is created with `baseURL` "/api/v1/super" (api.ts lines 86-91)
and its request interceptor (lines 94-103) only attaches the operator
token. -/
def superRequest (s : AuthState) (url : String) : RequestConfig :=
  let cfg : RequestConfig := { url := url, baseURL := some "/api/v1/super", authHeader := none }
  if strTruthy s.superToken then
    { cfg with authHeader := some ("Bearer " ++ s.superToken.getD "") }
  else cfg

/-- The body of a successful refresh response:
`response.data.tokens?.access_token` and `response.data.access_token`. -/
structure RefreshData where
  tokensAccess : Option String
  accessToken : Option String
  deriving DecidableEq

/-- Outcome of the `POST /api/v1/slug/auth/refresh` call: either the
promise rejects (network or HTTP error) or it resolves with a body. -/
inductive RefreshOutcome where
  | failure
  | success (d : RefreshData)
  deriving DecidableEq

/-- `const newToken = response.data.tokens?.access_token || response.data.access_token`. -/
def newTokenOf (d : RefreshData) : Option String :=
  jsOr d.tokensAccess d.accessToken

/-- What the response interceptor returns to the original caller: the
result of replaying the request (`return axios(error.config)`), or the
original error re-thrown (`return Promise.reject(error)`). -/
inductive CallOutcome where
  | replayed (cfg : RequestConfig)
  | rejected
  deriving DecidableEq

/-- Observable effects of one run of a response interceptor on a failed
call: the store afterwards, the refresh calls issued (slug and refresh
token of each `POST .../auth/refresh`), the requests replayed, the
`window.location.href` assignment if any, and what the caller receives. -/
structure InterceptorResult where
  store : AuthState
  refreshCalls : List (String × String)
  replays : List RequestConfig
  redirect : Option String
  outcome : CallOutcome
  deriving DecidableEq

/-- The error handler of the tenant-instance response interceptor
(api.ts lines 47-80).  `env` gives the outcome of the refresh endpoint
for a given slug and refresh token; `errConfig` is `error.config`. -/
def tenantResponseInterceptor (s : AuthState) (status : Nat)
    (errConfig : Option RequestConfig) (env : String → String → RefreshOutcome) :
    InterceptorResult :=
  if status != 401 then
    { store := s, refreshCalls := [], replays := [], redirect := none, outcome := .rejected }
  else if strTruthy s.refreshToken && strTruthy s.tenantSlug then
    let rt := s.refreshToken.getD ""
    let sl := s.tenantSlug.getD ""
    match env sl rt with
    | .success d =>
      let nt := newTokenOf d
      if strTruthy nt then
        let ntv := nt.getD ""
        let s1 := setToken s ntv
        match errConfig with
        | some cfg =>
          let cfg1 := { cfg with authHeader := some ("Bearer " ++ ntv) }
          { store := s1, refreshCalls := [(sl, rt)], replays := [cfg1],
            redirect := none, outcome := .replayed cfg1 }
        | none =>
          { store := s1, refreshCalls := [(sl, rt)], replays := [],
            redirect := none, outcome := .rejected }
      else
        { store := s, refreshCalls := [(sl, rt)], replays := [],
          redirect := none, outcome := .rejected }
    | .failure =>
      { store := logout s, refreshCalls := [(sl, rt)], replays := [],
        redirect := some ("/" ++ sl ++ "/login"), outcome := .rejected }
  else
    let slug := orDefault s.tenantSlug ""
    { store := logout s, refreshCalls := [], replays := [],
      redirect := some (if slug != "" then "/" ++ slug ++ "/login" else "/s-panel/access"),
      outcome := .rejected }

/-- The error handler of the operator-instance response interceptor
(api.ts lines 106-115): on 401, `superLogout` and redirect to
"/s-panel/access"; no refresh is ever attempted. -/
def superResponseInterceptor (s : AuthState) (status : Nat) : InterceptorResult :=
  if status != 401 then
    { store := s, refreshCalls := [], replays := [], redirect := none, outcome := .rejected }
  else
    { store := superLogout s, refreshCalls := [], replays := [],
      redirect := some "/s-panel/access", outcome := .rejected }

/-- One admissible event-loop schedule for a batch of calls that all
failed with 401: the interceptor runs for each error in order, each run
reading the store left by the previous one.  Returns the final store and
the concatenation of all refresh calls issued. -/
def batch401 : AuthState → List RequestConfig → (String → String → RefreshOutcome) →
    AuthState × List (String × String)
  | s, [], _ => (s, [])
  | s, cfg :: rest, env =>
    let r := tenantResponseInterceptor s 401 (some cfg) env
    let res := batch401 r.store rest env
    (res.1, r.refreshCalls ++ res.2)

/-! ## Operator login state machine (SuperLoginPage in src/unnamed/part_000) -/

/-- The body of a `POST /auth/verify-step4` request as built by
`doFinalLogin`. -/
structure FinalLoginCall where
  username : String
  password : String
  pin : String
  securityCode : String
  deriving DecidableEq

/-- The component state of `SuperLoginPage` that the step handlers touch,
together with the auth store and a log of the step-4 calls issued and the
navigation target, so theorems can observe the effects of the handlers. -/
structure OperatorLogin where
  step : Nat
  username : String
  password : String
  pin : String
  securityCode : String
  hasPin : Bool
  hasCode : Bool
  errMsg : Option String
  lockMsg : Option String
  store : AuthState
  finalCalls : List FinalLoginCall
  navTarget : Option String
  deriving DecidableEq

/-- Result of the `POST /auth/verify-step2` call: success carries
`{ has_pin, has_code }`; an error carries the HTTP status and the optional
`detail` message. -/
inductive Step2Result where
  | ok (has_pin has_code : Bool)
  | err (status : Nat) (detail : Option String)
  deriving DecidableEq

/-- Result of the `POST /auth/verify-step4` call made by `doFinalLogin`. -/
inductive Step4Result where
  | ok (admin : SuperAdmin) (access_token refresh_token : String)
  | err (detail : Option String)
  deriving DecidableEq

/-- `doFinalLogin(p, sc)` (part_000 lines 727-737): posts step 4 with
pin defaulted to the string 000000 and security code defaulted to the
string default when empty; on success
calls `setSuperAuth` and navigates to the dashboard; on error sets
the error message to the detail string, defaulted to Xatolik. -/
def doFinalLogin (st : OperatorLogin) (p sc : String) (r4 : Step4Result) : OperatorLogin :=
  let call : FinalLoginCall :=
    { username := st.username, password := st.password,
      pin := orStr p "000000", securityCode := orStr sc "default" }
  let st1 := { st with finalCalls := st.finalCalls ++ [call] }
  match r4 with
  | .ok admin access refresh =>
    { st1 with
      store := setSuperAuth st1.store admin access refresh
      navTarget := some "/s-panel/dashboard" }
  | .err detail =>
    { st1 with errMsg := some (orDefault detail "Xatolik") }

/-- `handleStep2` (part_000 lines 683-703): guarded by a truthy password;
clears the error, records `has_pin`/`has_code`; if neither factor is
configured it calls `doFinalLogin` directly with two empty strings, if
only the code is
configured it jumps to step 4, otherwise it advances to step 3.  A 423
error sets the lock message, any other error sets the error message. -/
def handleStep2 (st : OperatorLogin) (r2 : Step2Result) (r4 : Step4Result) : OperatorLogin :=
  if st.password = "" then st
  else
    let st0 := { st with errMsg := some "" }
    match r2 with
    | .ok hp hc =>
      let st1 := { st0 with hasPin := hp, hasCode := hc }
      if !hp && !hc then doFinalLogin st1 "" "" r4
      else if !hp then { st1 with step := 4 }
      else { st1 with step := 3 }
    | .err status detail =>
      if status = 423 then { st0 with lockMsg := detail }
      else { st0 with errMsg := some (orDefault detail "Xatolik") }

/-! ## Access gate (TenantProtectedRoute in src/unnamed/part_002) -/

/-- The slice of `GET /api/v1/tenant/slug/info` the gate reads:
`payment_required` (coerced with `!!`) and the optional
`payment_message`. -/
structure TenantInfo where
  payment_required : Bool
  payment_message : Option String
  deriving DecidableEq

/-- The component state of `TenantProtectedRoute` that the poll touches,
together with the auth store. -/
structure GateState where
  store : AuthState
  paymentBlock : Bool
  paymentMsg : String
  deriving DecidableEq

/-- `checkTenantStatus` (part_002 lines 42-53): returns unchanged when
`urlSlug` is falsy or the poll fails (the catch swallows errors);
otherwise sets `paymentBlock`/`paymentMsg` from the response and, when a
user is stored whose `payment_required` differs from the polled value,
writes the user back into the store with the polled payment fields. -/
def checkTenantStatus (g : GateState) (urlSlug : Option String)
    (poll : Option TenantInfo) : GateState :=
  if !(strTruthy urlSlug) then g
  else
    match poll with
    | none => g
    | some d =>
      let pb := d.payment_required
      let pm := orDefault d.payment_message ""
      let g1 := { g with paymentBlock := pb, paymentMsg := pm }
      match g1.store.user with
      | some u =>
        if (match u.payment_required with
            | some b => b != pb
            | none => true) then
          let u1 := { u with payment_required := some pb, payment_message := some pm }
          { g1 with store := setUser g1.store u1 }
        else g1
      | none => g1

/-! ## Concrete fixtures used by witnesses and counterexamples -/

/-- A sample tenant user: a manager with one permission, not
payment-blocked. -/
def sampleUser : User :=
  { id := 1, role_type := "manager", permissions := some ["sales.view"],
    payment_required := some false, payment_message := none }

/-- A sample operator identity. -/
def sampleAdmin : SuperAdmin :=
  { id := 1, username := "root" }

/-- A store with an active tenant session for slug "acme". -/
def tenantStore : AuthState :=
  setAuth initialState sampleUser "T1" "R1" "acme"

/-- A store with an active operator session. -/
def operatorStore : AuthState :=
  setSuperAuth initialState sampleAdmin "ST" "SR"

/-- A tenant session whose refresh token is gone. -/
def staleTenantStore : AuthState :=
  { tenantStore with refreshToken := none }

/-- A sample failed request config (tenant call to /products, already
routed and authenticated by the request interceptor). -/
def cfgA : RequestConfig :=
  { url := "/products", baseURL := some "/api/v1/acme", authHeader := some "Bearer T1" }

/-- A second sample failed request config. -/
def cfgB : RequestConfig :=
  { url := "/sales", baseURL := some "/api/v1/acme", authHeader := some "Bearer T1" }

/-- A refresh endpoint that always succeeds with top-level access_token
"T2". -/
def envOk : String → String → RefreshOutcome :=
  fun _ _ => .success { tokensAccess := none, accessToken := some "T2" }

/-! ## C2 — domain exclusivity -/

lemma domainExclusive_applySessionEvent (s : AuthState) (e : SessionEvent) :
    domainExclusive (applySessionEvent s e) = true := by
  cases e <;>
    simp [applySessionEvent, setAuth, setSuperAuth, domainExclusive,
      tenantTokens, operatorTokens]

lemma domainExclusive_foldl (evs : List SessionEvent) :
    ∀ s : AuthState, domainExclusive s = true →
      domainExclusive (evs.foldl applySessionEvent s) = true := by
  induction evs with
  | nil => intro s h; simpa using h
  | cons e rest ih =>
    intro s _
    simpa using ih (applySessionEvent s e) (domainExclusive_applySessionEvent s e)

/-- C2.  Domain exclusivity: for every sequence of `setAuth` /
`setSuperAuth` calls from the initial store state, at most one identity
domain has non-null tokens after each call (every prefix of the sequence
is itself such a sequence); moreover `setAuth` clears all
operator-session fields and `setSuperAuth` clears all tenant-session
fields. -/
theorem domain_exclusivity :
    (∀ evs : List SessionEvent, domainExclusive (runSession evs) = true) ∧
    (∀ (s : AuthState) (u : User) (t r sl : String),
      (setAuth s u t r sl).superAdmin = none ∧
      (setAuth s u t r sl).superToken = none ∧
      (setAuth s u t r sl).superRefreshToken = none ∧
      (setAuth s u t r sl).isSuperAdmin = false) ∧
    (∀ (s : AuthState) (a : SuperAdmin) (t r : String),
      (setSuperAuth s a t r).user = none ∧
      (setSuperAuth s a t r).token = none ∧
      (setSuperAuth s a t r).refreshToken = none ∧
      (setSuperAuth s a t r).tenantSlug = none ∧
      (setSuperAuth s a t r).isAuthenticated = false) := by
  refine ⟨fun evs => ?_, fun s u t r sl => ⟨rfl, rfl, rfl, rfl⟩,
    fun s a t r => ⟨rfl, rfl, rfl, rfl, rfl⟩⟩
  exact domainExclusive_foldl evs initialState (by decide)

/-! ## C8 — setToken frame effect -/

/-- C8 counterexample.  The claim says `setToken` replaces only the
access token of the currently active domain.  In the state reached by
`setSuperAuth` the active domain is the operator domain
(`isSuperAdmin = true`), yet `setToken "T2"` leaves `superToken`
untouched and instead writes the tenant-domain `token` field, which was
null. -/
theorem setToken_domain_counterexample :
    operatorStore.isSuperAdmin = true ∧
    operatorStore.token = none ∧
    (setToken operatorStore "T2").superToken = some "ST" ∧
    (setToken operatorStore "T2").superToken ≠ some "T2" ∧
    (setToken operatorStore "T2").token = some "T2" := by
  decide

/-- C8 amended.  `setToken` always writes the tenant-domain `token`
field, regardless of which domain is active, and leaves every other
field — user, refresh token, slug, authentication flags and all three
operator-session fields — unchanged. -/
theorem setToken_frame_amended :
    ∀ (s : AuthState) (t : String),
      (setToken s t).token = some t ∧
      (setToken s t).user = s.user ∧
      (setToken s t).refreshToken = s.refreshToken ∧
      (setToken s t).tenantSlug = s.tenantSlug ∧
      (setToken s t).isAuthenticated = s.isAuthenticated ∧
      (setToken s t).superAdmin = s.superAdmin ∧
      (setToken s t).superToken = s.superToken ∧
      (setToken s t).superRefreshToken = s.superRefreshToken ∧
      (setToken s t).isSuperAdmin = s.isSuperAdmin :=
  fun _ _ => ⟨rfl, rfl, rfl, rfl, rfl, rfl, rfl, rfl, rfl⟩

/-! ## C10 — hasPermission -/

/-- C10.  `hasPermission p` is false whenever no tenant user is stored;
true for every `p` when the stored user has role_type "director",
regardless of the permission list; and otherwise true exactly when `p`
is contained in the permission list, or false when that list is
absent. -/
theorem hasPermission_spec :
    (∀ (s : AuthState) (p : String), s.user = none → hasPermission s p = false) ∧
    (∀ (s : AuthState) (p : String) (u : User), s.user = some u →
      u.role_type = "director" → hasPermission s p = true) ∧
    (∀ (s : AuthState) (p : String) (u : User) (ps : List String),
      s.user = some u → u.role_type ≠ "director" → u.permissions = some ps →
      hasPermission s p = ps.contains p) ∧
    (∀ (s : AuthState) (p : String) (u : User), s.user = some u →
      u.role_type ≠ "director" → u.permissions = none →
      hasPermission s p = false) := by
  refine ⟨fun s p h => ?_, fun s p u hu hd => ?_, fun s p u ps hu hd hp => ?_,
    fun s p u hu hd hp => ?_⟩
  · simp [hasPermission, h]
  · simp [hasPermission, hu, hd]
  · simp [hasPermission, hu, hd, hp]
  · simp [hasPermission, hu, hd, hp]

/-- C10 witness: the four cases of `hasPermission_spec` evaluated at
concrete stores. -/
theorem hasPermission_spec_witness :
    hasPermission initialState "sales.view" = false ∧
    hasPermission (setUser initialState { sampleUser with role_type := "director" })
      "billing.edit" = true ∧
    hasPermission (setUser initialState sampleUser) "sales.view" =
      List.contains ["sales.view"] "sales.view" ∧
    hasPermission (setUser initialState { sampleUser with permissions := none })
      "sales.view" = false :=
  ⟨hasPermission_spec.1 initialState "sales.view" rfl,
   hasPermission_spec.2.1 (setUser initialState { sampleUser with role_type := "director" })
     "billing.edit" { sampleUser with role_type := "director" } rfl rfl,
   hasPermission_spec.2.2.1 (setUser initialState sampleUser) "sales.view" sampleUser
     ["sales.view"] rfl (by decide) rfl,
   hasPermission_spec.2.2.2 (setUser initialState { sampleUser with permissions := none })
     "sales.view" { sampleUser with permissions := none } rfl (by decide) rfl⟩

/-! ## C5 — partition correctness -/

/-- C5 counterexample.  The claim says that when no tenant slug is
stored, tenant-instance calls fall back to the unscoped "/api/v1"
partition.  In the code that fallback exists only in the dead function
`getTenantBaseURL`; the request interceptor never applies it, so a
tenant-instance call with no slug stored carries no base URL at all. -/
theorem partition_fallback_counterexample :
    initialState.tenantSlug = none ∧
    (tenantRequest initialState "/products").baseURL = none ∧
    (tenantRequest initialState "/products").baseURL ≠ some "/api/v1" ∧
    getTenantBaseURL initialState = "/api/v1" := by
  decide

/-- C5 amended.  With a tenant session for non-empty slug `sl` active,
a call with a non-empty path that does not start with "/api/v1/super"
gets base URL "/api/v1/" ++ sl; a call to an operator path keeps no base
URL (it is never partitioned by the slug); operator-instance calls
always use the fixed "/api/v1/super" base regardless of tenant state;
and when no slug is stored the tenant instance applies no base URL at
all (not the unscoped "/api/v1" of the unused `getTenantBaseURL`). -/
theorem partition_correctness_amended :
    (∀ (s : AuthState) (u sl : String), s.tenantSlug = some sl → sl ≠ "" →
      u ≠ "" → strStartsWith u "/api/v1/super" = false →
      (tenantRequest s u).baseURL = some ("/api/v1/" ++ sl)) ∧
    (∀ (s : AuthState) (u : String), strStartsWith u "/api/v1/super" = true →
      (tenantRequest s u).baseURL = none) ∧
    (∀ (s : AuthState) (u : String), (superRequest s u).baseURL = some "/api/v1/super") ∧
    (∀ (s : AuthState) (u : String), s.tenantSlug = none →
      (tenantRequest s u).baseURL = none) := by
  refine ⟨fun s u sl hsl hne hu hsup => ?_, fun s u hsup => ?_,
    fun s u => ?_, fun s u hsl => ?_⟩
  · simp [tenantRequest, applyRequestInterceptor, strTruthy, hsl, hne, hu, hsup,
      apply_ite (RequestConfig.baseURL)]
  · simp [tenantRequest, applyRequestInterceptor, strTruthy, hsup,
      apply_ite (RequestConfig.baseURL)]
  · simp [superRequest, apply_ite (RequestConfig.baseURL)]
  · simp [tenantRequest, applyRequestInterceptor, strTruthy, hsl,
      apply_ite (RequestConfig.baseURL)]

/-- C5 amended witness: the four cases of `partition_correctness_amended`
evaluated at concrete stores and paths. -/
theorem partition_correctness_amended_witness :
    (tenantRequest tenantStore "/products").baseURL = some "/api/v1/acme" ∧
    (tenantRequest tenantStore "/api/v1/super/tenants").baseURL = none ∧
    (superRequest tenantStore "/tenants").baseURL = some "/api/v1/super" ∧
    (tenantRequest initialState "/products").baseURL = none :=
  ⟨partition_correctness_amended.1 tenantStore "/products" "acme" rfl (by decide)
     (by decide) (by decide),
   partition_correctness_amended.2.1 tenantStore "/api/v1/super/tenants" (by decide),
   partition_correctness_amended.2.2.1 tenantStore "/tenants",
   partition_correctness_amended.2.2.2 initialState "/products" rfl⟩

/-! ## C3 — refresh-success replay -/

/-- C3.  Refresh-success replay: when a tenant call fails with 401 while
a non-empty refresh token and slug are stored, and the refresh call
succeeds with a truthy new access token `t2`, then the store token is
updated to `t2`, the original request is replayed exactly once with
`Authorization: Bearer t2`, and the result of that replay — not the
original 401 — is what the caller receives. -/
theorem refresh_success_replay (s : AuthState) (cfg : RequestConfig)
    (env : String → String → RefreshOutcome) (rt sl t2 : String) (d : RefreshData)
    (hrt : s.refreshToken = some rt) (hrtne : rt ≠ "")
    (hsl : s.tenantSlug = some sl) (hslne : sl ≠ "")
    (henv : env sl rt = .success d)
    (hnt : newTokenOf d = some t2) (ht2 : t2 ≠ "") :
    (tenantResponseInterceptor s 401 (some cfg) env).store.token = some t2 ∧
    (tenantResponseInterceptor s 401 (some cfg) env).replays =
      [{ cfg with authHeader := some ("Bearer " ++ t2) }] ∧
    (tenantResponseInterceptor s 401 (some cfg) env).outcome =
      .replayed { cfg with authHeader := some ("Bearer " ++ t2) } ∧
    (tenantResponseInterceptor s 401 (some cfg) env).refreshCalls = [(sl, rt)] := by
  simp [tenantResponseInterceptor, strTruthy, hrt, hsl, hrtne, hslne, henv, hnt,
    ht2, setToken]

/-- C3 witness: `refresh_success_replay` at a concrete session, request
and refresh environment. -/
theorem refresh_success_replay_witness :
    (tenantResponseInterceptor tenantStore 401 (some cfgA) envOk).store.token = some "T2" ∧
    (tenantResponseInterceptor tenantStore 401 (some cfgA) envOk).replays =
      [{ cfgA with authHeader := some "Bearer T2" }] ∧
    (tenantResponseInterceptor tenantStore 401 (some cfgA) envOk).outcome =
      .replayed { cfgA with authHeader := some "Bearer T2" } ∧
    (tenantResponseInterceptor tenantStore 401 (some cfgA) envOk).refreshCalls =
      [("acme", "R1")] :=
  refresh_success_replay tenantStore cfgA envOk "R1" "acme" "T2"
    { tokensAccess := none, accessToken := some "T2" }
    rfl (by decide) rfl (by decide) rfl rfl (by decide)

/-! ## C4 — non-refreshable 401 handling -/

/-- C4.  Non-refreshable 401 handling: a tenant call failing with 401
while no refresh token is available issues no refresh call, terminates
the tenant session and redirects to the tenant login surface when a
non-empty slug is stored, or to the generic "/s-panel/access" entry
point when no slug is stored, and rejects with the original failure; an
operator call failing with 401 attempts no refresh, terminates the
operator session immediately and redirects to "/s-panel/access",
rejecting with the original failure. -/
theorem non_refreshable_401_logout :
    (∀ (s : AuthState) (cfg : Option RequestConfig)
        (env : String → String → RefreshOutcome) (sl : String),
      strTruthy s.refreshToken = false → s.tenantSlug = some sl → sl ≠ "" →
      (tenantResponseInterceptor s 401 cfg env).refreshCalls = [] ∧
      (tenantResponseInterceptor s 401 cfg env).store = logout s ∧
      (tenantResponseInterceptor s 401 cfg env).redirect = some ("/" ++ sl ++ "/login") ∧
      (tenantResponseInterceptor s 401 cfg env).outcome = .rejected) ∧
    (∀ (s : AuthState) (cfg : Option RequestConfig)
        (env : String → String → RefreshOutcome),
      strTruthy s.refreshToken = false → s.tenantSlug = none →
      (tenantResponseInterceptor s 401 cfg env).refreshCalls = [] ∧
      (tenantResponseInterceptor s 401 cfg env).store = logout s ∧
      (tenantResponseInterceptor s 401 cfg env).redirect = some "/s-panel/access" ∧
      (tenantResponseInterceptor s 401 cfg env).outcome = .rejected) ∧
    (∀ s : AuthState,
      (superResponseInterceptor s 401).refreshCalls = [] ∧
      (superResponseInterceptor s 401).store = superLogout s ∧
      (superResponseInterceptor s 401).redirect = some "/s-panel/access" ∧
      (superResponseInterceptor s 401).outcome = .rejected) := by
  refine ⟨fun s cfg env sl hrt hsl hne => ?_, fun s cfg env hrt hsl => ?_,
    fun s => ?_⟩
  · simp [tenantResponseInterceptor, hrt, hsl, hne, orDefault, orStr]
  · simp [tenantResponseInterceptor, hrt, hsl, orDefault]
  · simp [superResponseInterceptor]

/-- C4 witness: the tenant cases at concrete stores (slug stored / slug
absent) and the operator case at a concrete operator session. -/
theorem non_refreshable_401_logout_witness :
    ((tenantResponseInterceptor staleTenantStore 401 (some cfgA) envOk).refreshCalls = [] ∧
     (tenantResponseInterceptor staleTenantStore 401 (some cfgA) envOk).store =
       logout staleTenantStore ∧
     (tenantResponseInterceptor staleTenantStore 401 (some cfgA) envOk).redirect =
       some "/acme/login" ∧
     (tenantResponseInterceptor staleTenantStore 401 (some cfgA) envOk).outcome =
       .rejected) ∧
    ((tenantResponseInterceptor initialState 401 none envOk).refreshCalls = [] ∧
     (tenantResponseInterceptor initialState 401 none envOk).store = logout initialState ∧
     (tenantResponseInterceptor initialState 401 none envOk).redirect =
       some "/s-panel/access" ∧
     (tenantResponseInterceptor initialState 401 none envOk).outcome = .rejected) ∧
    ((superResponseInterceptor operatorStore 401).refreshCalls = [] ∧
     (superResponseInterceptor operatorStore 401).store = superLogout operatorStore ∧
     (superResponseInterceptor operatorStore 401).redirect = some "/s-panel/access" ∧
     (superResponseInterceptor operatorStore 401).outcome = .rejected) :=
  ⟨non_refreshable_401_logout.1 staleTenantStore (some cfgA) envOk "acme"
     (by decide) rfl (by decide),
   non_refreshable_401_logout.2.1 initialState none envOk (by decide) rfl,
   non_refreshable_401_logout.2.2 operatorStore⟩

/-! ## C9 — refresh requires both refresh token and slug -/

/-- C9.  A 401 on a tenant call with a truthy refresh token but a null
tenant slug issues no refresh call: the tenant session is terminated and
the browser is redirected to the generic "/s-panel/access" entry point,
with the original failure rejected to the caller. -/
theorem refresh_requires_slug (s : AuthState) (cfg : Option RequestConfig)
    (env : String → String → RefreshOutcome)
    (hrt : strTruthy s.refreshToken = true) (hsl : s.tenantSlug = none) :
    (tenantResponseInterceptor s 401 cfg env).refreshCalls = [] ∧
    (tenantResponseInterceptor s 401 cfg env).store = logout s ∧
    (tenantResponseInterceptor s 401 cfg env).redirect = some "/s-panel/access" ∧
    (tenantResponseInterceptor s 401 cfg env).outcome = .rejected := by
  simp [tenantResponseInterceptor, strTruthy, hrt, hsl, orDefault]

/-- C9 witness: `refresh_requires_slug` at a concrete store holding a
refresh token but no slug. -/
theorem refresh_requires_slug_witness :
    (tenantResponseInterceptor { initialState with refreshToken := some "R1" } 401
      (some cfgA) envOk).refreshCalls = [] ∧
    (tenantResponseInterceptor { initialState with refreshToken := some "R1" } 401
      (some cfgA) envOk).store = logout { initialState with refreshToken := some "R1" } ∧
    (tenantResponseInterceptor { initialState with refreshToken := some "R1" } 401
      (some cfgA) envOk).redirect = some "/s-panel/access" ∧
    (tenantResponseInterceptor { initialState with refreshToken := some "R1" } 401
      (some cfgA) envOk).outcome = .rejected :=
  refresh_requires_slug { initialState with refreshToken := some "R1" }
    (some cfgA) envOk (by decide) rfl

/-! ## C1 — single-flight refresh -/

/-- C1 counterexample.  The claim says N ≥ 2 concurrent 401s issue
exactly one refresh call.  The interceptor has no in-flight-refresh
guard: under the modelled event-loop schedule (each failed call handled
in turn, each handler reading the store the previous one left, with the
refresh endpoint succeeding every time) two 401s on a live tenant
session issue two refresh calls, not one. -/
theorem single_flight_counterexample :
    (batch401 tenantStore [cfgA, cfgB] envOk).2.length = 2 ∧
    (batch401 tenantStore [cfgA, cfgB] envOk).2.length ≠ 1 := by
  decide

lemma interceptor_success_step (s : AuthState) (cfg : RequestConfig)
    (env : String → String → RefreshOutcome)
    (hrt : strTruthy s.refreshToken = true) (hsl : strTruthy s.tenantSlug = true)
    (henv : ∀ sl rt, ∃ d, env sl rt = .success d ∧ strTruthy (newTokenOf d) = true) :
    (tenantResponseInterceptor s 401 (some cfg) env).refreshCalls.length = 1 ∧
    strTruthy (tenantResponseInterceptor s 401 (some cfg) env).store.refreshToken = true ∧
    strTruthy (tenantResponseInterceptor s 401 (some cfg) env).store.tenantSlug = true := by
  obtain ⟨d, hd, hnt⟩ := henv (s.tenantSlug.getD "") (s.refreshToken.getD "")
  simp [tenantResponseInterceptor, hrt, hsl, hd, hnt, setToken]

/-- C1 amended.  There is no single-flight mechanism: every call that
fails with 401 while a truthy refresh token and tenant slug are stored
independently issues its own refresh call, so a batch of N failing calls
issues exactly N refresh calls when the refresh endpoint keeps
succeeding with a truthy token. -/
theorem refresh_per_failing_call (s : AuthState) (errs : List RequestConfig)
    (env : String → String → RefreshOutcome)
    (hrt : strTruthy s.refreshToken = true) (hsl : strTruthy s.tenantSlug = true)
    (henv : ∀ sl rt, ∃ d, env sl rt = .success d ∧ strTruthy (newTokenOf d) = true) :
    (batch401 s errs env).2.length = errs.length := by
  induction errs generalizing s with
  | nil => simp [batch401]
  | cons cfg rest ih =>
    obtain ⟨h1, h2, h3⟩ := interceptor_success_step s cfg env hrt hsl henv
    simp only [batch401, List.length_append, List.length_cons, h1]
    rw [ih (tenantResponseInterceptor s 401 (some cfg) env).store h2 h3]
    omega

/-- C1 amended witness: `refresh_per_failing_call` on a concrete batch
of two failed calls, giving two refresh calls. -/
theorem refresh_per_failing_call_witness :
    (batch401 tenantStore [cfgA, cfgB] envOk).2.length = [cfgA, cfgB].length :=
  refresh_per_failing_call tenantStore [cfgA, cfgB] envOk (by decide) (by decide)
    (fun _ _ => ⟨{ tokensAccess := none, accessToken := some "T2" }, rfl, by decide⟩)

/-! ## C6 — step-skip correctness -/

/-- C6.  Step-skip correctness of the operator login machine, from step
2 with a truthy password: a step-2 response with has_pin false and
has_code true moves the machine directly to step 4 with no step-4 call
issued yet (step 3 is never visited — the transition is atomic and no
PIN verification happens); a response with neither factor configured
finalizes directly, issuing the step-4 call with the placeholder pin
"000000" and security code "default" while the step counter never
reaches 3 or 4; and a response with has_pin true advances to step 3. -/
theorem step_skip_correctness (st : OperatorLogin) (r4 : Step4Result)
    (hpw : st.password ≠ "") (hstep : st.step = 2) :
    ((handleStep2 st (.ok false true) r4).step = 4 ∧
     (handleStep2 st (.ok false true) r4).finalCalls = st.finalCalls) ∧
    ((handleStep2 st (.ok false false) r4).step = 2 ∧
     (handleStep2 st (.ok false false) r4).finalCalls = st.finalCalls ++
       [{ username := st.username, password := st.password,
          pin := "000000", securityCode := "default" }]) ∧
    (∀ hc : Bool, (handleStep2 st (.ok true hc) r4).step = 3) := by
  refine ⟨⟨?_, ?_⟩, ⟨?_, ?_⟩, fun hc => ?_⟩ <;>
    cases r4 <;>
      simp [handleStep2, doFinalLogin, hpw, hstep, orStr]

/-- An operator login flow sitting at step 2 with identity and password
entered. -/
def loginAtStep2 : OperatorLogin :=
  { step := 2, username := "admin", password := "pw", pin := "",
    securityCode := "", hasPin := true, hasCode := true, errMsg := none,
    lockMsg := none, store := initialState, finalCalls := [], navTarget := none }

/-- C6 witness: `step_skip_correctness` at a concrete login state
sitting at step 2. -/
theorem step_skip_correctness_witness :
    ((handleStep2 loginAtStep2 (.ok false true) (.err none)).step = 4 ∧
     (handleStep2 loginAtStep2 (.ok false true) (.err none)).finalCalls =
       loginAtStep2.finalCalls) ∧
    ((handleStep2 loginAtStep2 (.ok false false) (.err none)).step = 2 ∧
     (handleStep2 loginAtStep2 (.ok false false) (.err none)).finalCalls =
       loginAtStep2.finalCalls ++
       [{ username := "admin", password := "pw",
          pin := "000000", securityCode := "default" }]) ∧
    (∀ hc : Bool, (handleStep2 loginAtStep2 (.ok true hc) (.err none)).step = 3) :=
  step_skip_correctness loginAtStep2 (.err none) (by decide) rfl

/-! ## C7 — access-gate non-destructive blocking -/

lemma strTruthy_some (sl : String) (h : sl ≠ "") : strTruthy (some sl) = true := by
  simp [strTruthy, h]

/-- A gate state over the live tenant session, not yet blocked. -/
def gateStart : GateState :=
  { store := tenantStore, paymentBlock := false, paymentMsg := "" }

/-- A poll response reporting the tenant payment-blocked. -/
def infoBlocked : TenantInfo :=
  { payment_required := true, payment_message := some "pay first" }

/-- A poll response reporting the tenant unblocked. -/
def infoClear : TenantInfo :=
  { payment_required := false, payment_message := none }

/-- C7 counterexample.  The claim says toggling `payment_required`
blocks and unblocks the UI without altering any Credential Store
contents at any point.  The poll handler syncs the polled payment fields
into the stored user record via `setUser`, so the first poll that flips
the flag to true does alter the store: the stored user record changes. -/
theorem access_gate_store_counterexample :
    (checkTenantStatus gateStart (some "acme") (some infoBlocked)).paymentBlock = true ∧
    (checkTenantStatus gateStart (some "acme") (some infoBlocked)).store ≠
      gateStart.store := by
  decide

/-- C7 amended.  Toggling the polled `payment_required` flag first
blocks and then unblocks the UI on the next poll; the tokens, refresh
token, slug, authentication flags and operator-session fields are never
altered and the session stays valid, but the stored user record is the
one exception: its payment fields are synced to the polled values when
they differ.  A failed poll (and a falsy route slug) leaves the whole
state unchanged. -/
theorem access_gate_amended :
    (∀ (g : GateState) (sl : String) (info : TenantInfo), sl ≠ "" →
      (checkTenantStatus g (some sl) (some info)).paymentBlock = info.payment_required) ∧
    (∀ (g : GateState) (sl : String) (info : TenantInfo), sl ≠ "" →
      (checkTenantStatus g (some sl) (some info)).store.token = g.store.token ∧
      (checkTenantStatus g (some sl) (some info)).store.refreshToken =
        g.store.refreshToken ∧
      (checkTenantStatus g (some sl) (some info)).store.tenantSlug = g.store.tenantSlug ∧
      (checkTenantStatus g (some sl) (some info)).store.isAuthenticated =
        g.store.isAuthenticated ∧
      (checkTenantStatus g (some sl) (some info)).store.superAdmin = g.store.superAdmin ∧
      (checkTenantStatus g (some sl) (some info)).store.superToken = g.store.superToken ∧
      (checkTenantStatus g (some sl) (some info)).store.superRefreshToken =
        g.store.superRefreshToken ∧
      (checkTenantStatus g (some sl) (some info)).store.isSuperAdmin =
        g.store.isSuperAdmin) ∧
    (∀ (g : GateState) (sl : String) (info : TenantInfo) (u : User), sl ≠ "" →
      g.store.user = some u →
      (checkTenantStatus g (some sl) (some info)).store.user = some u ∨
      (checkTenantStatus g (some sl) (some info)).store.user =
        some { u with
          payment_required := some info.payment_required
          payment_message := some (orDefault info.payment_message "") }) ∧
    (∀ (g : GateState) (u : Option String), checkTenantStatus g u none = g) := by
  refine ⟨fun g sl info hsl => ?_, fun g sl info hsl => ?_,
    fun g sl info u hsl hu => ?_, fun g u => ?_⟩
  · simp only [checkTenantStatus, strTruthy_some sl hsl, Bool.not_true,
      Bool.false_eq_true, if_false]
    split
    · split <;> rfl
    · rfl
  · refine ⟨?_, ?_, ?_, ?_, ?_, ?_, ?_, ?_⟩ <;>
      (simp only [checkTenantStatus, strTruthy_some sl hsl, Bool.not_true,
        Bool.false_eq_true, if_false]
       split
       · split <;> rfl
       · rfl)
  · simp only [checkTenantStatus, strTruthy_some sl hsl, Bool.not_true,
      Bool.false_eq_true, if_false]
    split
    · next u2 heq =>
      rw [hu] at heq
      cases heq
      split
      · right; simp [setUser]
      · left; exact hu
    · next heq => rw [hu] at heq; cases heq
  · unfold checkTenantStatus
    by_cases h : strTruthy u <;> simp [h]

/-- C7 amended witness: a full false→true→false toggle at a concrete
gate state, with the credential fields checked across the first poll and
a failed poll checked to be a no-op. -/
theorem access_gate_amended_witness :
    (checkTenantStatus gateStart (some "acme") (some infoBlocked)).paymentBlock =
      infoBlocked.payment_required ∧
    (checkTenantStatus (checkTenantStatus gateStart (some "acme") (some infoBlocked))
      (some "acme") (some infoClear)).paymentBlock = infoClear.payment_required ∧
    (checkTenantStatus gateStart (some "acme") (some infoBlocked)).store.token =
      gateStart.store.token ∧
    (checkTenantStatus gateStart (some "acme") (some infoBlocked)).store.refreshToken =
      gateStart.store.refreshToken ∧
    ((checkTenantStatus gateStart (some "acme") (some infoBlocked)).store.user =
       some sampleUser ∨
     (checkTenantStatus gateStart (some "acme") (some infoBlocked)).store.user =
       some { sampleUser with
         payment_required := some infoBlocked.payment_required
         payment_message := some (orDefault infoBlocked.payment_message "") }) ∧
    checkTenantStatus gateStart (some "acme") none = gateStart :=
  ⟨access_gate_amended.1 gateStart "acme" infoBlocked (by decide),
   access_gate_amended.1 (checkTenantStatus gateStart (some "acme") (some infoBlocked))
     "acme" infoClear (by decide),
   (access_gate_amended.2.1 gateStart "acme" infoBlocked (by decide)).1,
   (access_gate_amended.2.1 gateStart "acme" infoBlocked (by decide)).2.1,
   access_gate_amended.2.2.1 gateStart "acme" infoBlocked sampleUser (by decide) rfl,
   access_gate_amended.2.2.2 gateStart (some "acme")⟩

end ERP
